import Mathlib

/-!
Verification of the core logic of passenger-rs, a gateway between several
chat-completion client dialects and the GitHub Copilot backend.

The Rust sources are shallowly embedded: machine integers (`u32`, `u64`)
become `Nat` (no arithmetic in the embedded code can realistically
overflow), `Option`/`Result` become `Option`/`Except`, mutable state
becomes explicit state passing, and code that can panic (out-of-bounds
indexing) returns `Option`.  I/O effects (disk storage, HTTP calls, wall
clock, JSON framing) are passed in as explicit inputs: each embedded
function takes the parse/load/exchange outcomes that the Rust code would
obtain from its environment.
-/

namespace Passenger

/-! ## Data model (src/auth.rs) -/

/-- Response from the GitHub access-token request (`AccessTokenResponse`). -/
structure AccessTokenResponse where
  access_token : String
  token_type : String
  scope : String
deriving Repr, DecidableEq

/-- Response from the Copilot token request (`CopilotTokenResponse`):
`expires_at` is absolute unix seconds. -/
structure CopilotTokenResponse where
  token : String
  expires_at : Nat
  refresh_in : Nat
deriving Repr, DecidableEq

/-! ## Token expiry (src/storage.rs, `is_token_expired`)

The Rust function reads the wall clock internally; the embedding takes
`now` (unix seconds) as a parameter. -/

/-- Check if a token is expired (true if expired or within 60 seconds of
expiring): `token.expires_at <= now + 60`. -/
def is_token_expired (now : Nat) (token : CopilotTokenResponse) : Bool :=
  decide (token.expires_at ≤ now + 60)

/-! ## Token manager (src/token_manager.rs)

The credential store (disk files) and the upstream exchange call are
modelled as explicit inputs.  `StoredToken` is the combined outcome of
`storage::token_exists()` and `storage::load_token()`; the access-token
slot is the outcome of `storage::load_access_token()` (`Ok(None)` when
the file is absent/unreadable, `Err` when it exists but fails to
deserialize).  The returned pair carries the token written back to the
store (`none` when nothing was persisted); `storage::save_token` itself
is treated as succeeding. -/

/-- Outcome of checking and loading the cached Copilot token file. -/
inductive StoredToken where
  | missing
  | corrupt (msg : String)
  | loaded (t : CopilotTokenResponse)
deriving Repr, DecidableEq

/-- The credential store as seen by one `get_valid_token` call. -/
structure CredentialStore where
  token_file : StoredToken
  access_token : Except String (Option AccessTokenResponse)
deriving Repr

/-- Failure taxonomy of the token manager: `loginRequired` is the
"No GitHub access token available" bail-out, `refreshFailed` wraps an
upstream exchange failure, `storageError` a propagated store error. -/
inductive TokenError where
  | loginRequired
  | refreshFailed (msg : String)
  | storageError (msg : String)
deriving Repr, DecidableEq

/-- `refresh_token`: bail with `loginRequired` when no access token is
available, otherwise exchange it for a Copilot token via the upstream
call; on success save and return the new token. -/
def refresh_token (github_access_token : Option AccessTokenResponse)
    (exchange : AccessTokenResponse → Except String CopilotTokenResponse) :
    Except TokenError CopilotTokenResponse × Option CopilotTokenResponse :=
  match github_access_token with
  | none => (.error .loginRequired, none)
  | some tok =>
    match exchange tok with
    | .error e => (.error (.refreshFailed e), none)
    | .ok copilot_token => (.ok copilot_token, some copilot_token)

/-- `get_valid_token`: return the cached token when it loads and is not
expired; otherwise load the GitHub access token (propagating a load
error) and refresh. -/
def get_valid_token (now : Nat) (store : CredentialStore)
    (exchange : AccessTokenResponse → Except String CopilotTokenResponse) :
    Except TokenError CopilotTokenResponse × Option CopilotTokenResponse :=
  let fallback :=
    match store.access_token with
    | .error e => (.error (.storageError e), none)
    | .ok github_access_token => refresh_token github_access_token exchange
  match store.token_file with
  | .loaded t => if !is_token_expired now t then (.ok t, none) else fallback
  | .missing => fallback
  | .corrupt _ => fallback

/-! ## OpenAI chat-completion request model (src/openai/completion/models/mod.rs)

Fields never read or written by the functions under study (`temperature`,
`max_tokens`, `tools`, `tool_choice` — the first is a float, the others
are passed through untouched) are omitted from the request structure. -/

/-- A function invocation inside a tool call (`FunctionCall`). -/
structure FunctionCall where
  name : String
  arguments : String
deriving Repr, DecidableEq

/-- Tool call made by the assistant (`ToolCall`); `tool_type` is the
serde-renamed `type` field. -/
structure ToolCall where
  id : Option String
  tool_type : String
  function : FunctionCall
deriving Repr, DecidableEq

/-- One chat message (`OpenAIMessage`). -/
structure OpenAIMessage where
  role : String
  content : Option String
  tool_calls : Option (List ToolCall)
  tool_call_id : Option String
  name : Option String
deriving Repr, DecidableEq

/-- An OpenAI-compatible chat completion request (`OpenAIChatRequest`). -/
structure OpenAIChatRequest where
  model : String
  messages : List OpenAIMessage
  stream : Bool
deriving Repr, DecidableEq

/-! ## Request normalizer (src/openai/completion/models/utils.rs) -/

/-- `OpenAIChatRequest::assistant_role`. -/
def assistant_role : String := "assistant"

/-- `OpenAIChatRequest::tool_role`. -/
def tool_role : String := "tool"

/-- `has_valid_id`: the id is present and non-empty. -/
def has_valid_id : Option String → Bool
  | some s => !s.isEmpty
  | none => false

/-- `ids_present`, over the message list: every "tool"-role message has a
valid `tool_call_id`, and every tool call of every "assistant" message
has a valid `id`. -/
def ids_present_msgs (messages : List OpenAIMessage) : Bool :=
  ((messages.filter fun m => m.role == tool_role).all fun m =>
      has_valid_id m.tool_call_id)
  &&
  (((messages.filter fun m => m.role == assistant_role).filterMap
      fun m => m.tool_calls).flatten.all fun c => has_valid_id c.id)

/-- `OpenAIChatRequest::ids_present`. -/
def ids_present (req : OpenAIChatRequest) : Bool :=
  ids_present_msgs req.messages

/-- The function names referenced by all assistant `tool_calls`, in
message order (the `assistant_tool_name` collection inside
`ensure_tool_ids`). -/
def collect_tool_names (messages : List OpenAIMessage) : List String :=
  ((messages.filter fun m => m.role == assistant_role).flatMap fun m =>
      match m.tool_calls with
      | some tool_calls => tool_calls
      | none => []).map fun tool_call => tool_call.function.name

/-- First mutation pass of `ensure_tool_ids`: walk the messages, and for
each "tool"-role message zipped with a remaining collected name, set
`name` to that collected name and `tool_call_id` to the running index.
The zip ends when the collected names run out: later tool messages are
left untouched (mirrors `iter_mut().filter(..).enumerate().zip(names)`). -/
def assign_tool_ids : List OpenAIMessage → Nat → List String → List OpenAIMessage
  | [], _, _ => []
  | m :: ms, idx, names =>
    if m.role == tool_role then
      match names with
      | [] => m :: assign_tool_ids ms (idx + 1) []
      | n :: rest =>
        { m with name := some n, tool_call_id := some (toString idx) } ::
          assign_tool_ids ms (idx + 1) rest
    else
      m :: assign_tool_ids ms idx names

/-- Renumber the ids of a tool-call list starting at `i` (the
`tc.iter_mut().enumerate()` loop of `ensure_tool_ids`, with `i = 0`). -/
def set_call_ids : Nat → List ToolCall → List ToolCall
  | _, [] => []
  | i, tc :: tcs => { tc with id := some (toString i) } :: set_call_ids (i + 1) tcs

/-- Second mutation pass of `ensure_tool_ids`: for an "assistant" message
holding tool calls, renumber their ids positionally (index restarting per
message); every other message is untouched. -/
def assign_call_ids (m : OpenAIMessage) : OpenAIMessage :=
  if m.role == assistant_role then
    match m.tool_calls with
    | some tcs => { m with tool_calls := some (set_call_ids 0 tcs) }
    | none => m
  else m

/-- `OpenAIChatRequest::ensure_tool_ids`: does nothing when `ids_present`;
otherwise runs the two mutation passes over the messages. -/
def ensure_tool_ids (req : OpenAIChatRequest) : OpenAIChatRequest :=
  if ids_present req then req
  else
    { req with messages :=
        ((assign_tool_ids req.messages 0 (collect_tool_names req.messages)).map
          assign_call_ids) }

/-- `OpenAIChatRequest::prepare_for_copilot`: currently only
`ensure_tool_ids` (the tool-message duplication call is commented out in
the source). -/
def prepare_for_copilot (req : OpenAIChatRequest) : OpenAIChatRequest :=
  ensure_tool_ids req

/-! ## Device-flow polling (src/auth.rs, `poll_for_access_token`)

The loop is embedded over the list of successive upstream poll responses,
each already classified the way the Rust code classifies the body text:
it first tries to parse an `AccessTokenError` (a JSON object with an
`error` field), then an `AccessTokenResponse`, else fails.  The result
records the sleeps performed (in seconds, in order) next to the outcome.
`interval` is an immutable parameter in the source (`interval: u64`, not
`mut`), which the embedding mirrors. -/

/-- One upstream poll response, as classified by the parsing cascade. -/
inductive PollBody where
  | err (code desc : String)
  | success (tok : AccessTokenResponse)
  | malformed
deriving Repr, DecidableEq

/-- Terminal outcome of the polling loop.  `outOfResponses` is a model
artifact: the response script ran out while the Rust loop would poll
again. -/
inductive PollResult where
  | success (tok : AccessTokenResponse)
  | expiredDeviceCode
  | accessDenied
  | pollError (code desc : String)
  | parseFailed
  | outOfResponses
deriving Repr, DecidableEq

/-- `poll_for_access_token`: sleeps `interval` on `authorization_pending`
and `interval + 5` on `slow_down`, then retries with the (unchanged)
`interval`; terminal error codes and the success body end the loop. -/
def poll_for_access_token (interval : Nat) :
    List PollBody → List Nat × PollResult
  | [] => ([], .outOfResponses)
  | .err "authorization_pending" _ :: rest =>
    let r := poll_for_access_token interval rest
    (interval :: r.1, r.2)
  | .err "slow_down" _ :: rest =>
    let r := poll_for_access_token interval rest
    ((interval + 5) :: r.1, r.2)
  | .err "expired_token" _ :: _ => ([], .expiredDeviceCode)
  | .err "access_denied" _ :: _ => ([], .accessDenied)
  | .err code desc :: _ => ([], .pollError code desc)
  | .success tok :: _ => ([], .success tok)
  | .malformed :: _ => ([], .parseFailed)

/-! ## Copilot response model (src/copilot/mod.rs, src/server/openai/chat_completion.rs) -/

/-- One Copilot message (`CopilotMessage`). -/
structure CopilotMessage where
  role : String
  content : Option String
  padding : Option String
  tool_calls : Option (List ToolCall)
  tool_call_id : Option String
  name : Option String
deriving Repr, DecidableEq

/-- One upstream choice (`CopilotChoice`); `index` is optional and
defaults to the array position on conversion. -/
structure CopilotChoice where
  index : Option Nat
  message : CopilotMessage
  finish_reason : String
deriving Repr, DecidableEq

/-- Token usage reported by Copilot (`CopilotUsage`). -/
structure CopilotUsage where
  prompt_tokens : Nat
  completion_tokens : Nat
  total_tokens : Nat
deriving Repr, DecidableEq

/-- The upstream chat response (`CopilotChatResponse`); `created` is
optional unix seconds. -/
structure CopilotChatResponse where
  id : String
  created : Option Nat
  model : String
  choices : List CopilotChoice
  usage : Option CopilotUsage
deriving Repr, DecidableEq

/-! ## Non-streaming OpenAI chat conversion (src/server/openai/chat_completion.rs)

The conversion is written inline in the `chat_completions` handler; it is
embedded here as a function of the wall clock (`now`, unix seconds) and
the parsed Copilot response. -/

/-- A choice of the client-facing response (`OpenAIChoice`). -/
structure OpenAIChoice where
  index : Nat
  message : OpenAIMessage
  finish_reason : String
deriving Repr, DecidableEq

/-- Usage of the client-facing response (`OpenAIUsage`). -/
structure OpenAIUsage where
  prompt_tokens : Nat
  completion_tokens : Nat
  total_tokens : Nat
deriving Repr, DecidableEq

/-- The client-facing chat response (`OpenAIChatResponse`); `created` is
mandatory. -/
structure OpenAIChatResponse where
  id : String
  object : String
  created : Nat
  model : String
  choices : List OpenAIChoice
  usage : OpenAIUsage
deriving Repr, DecidableEq

/-- The per-choice map of the handler: take the Copilot-provided index
when present, else the array position `i`, and copy the message fields
(`choices.into_iter().enumerate().map(..)`). -/
def copilot_choices_to_openai : Nat → List CopilotChoice → List OpenAIChoice
  | _, [] => []
  | i, c :: cs =>
    { index := c.index.getD i,
      message :=
        { role := c.message.role, content := c.message.content,
          tool_calls := c.message.tool_calls,
          tool_call_id := c.message.tool_call_id, name := c.message.name },
      finish_reason := c.finish_reason } :: copilot_choices_to_openai (i + 1) cs

/-- The non-streaming branch of `chat_completions`: backfill a missing
`created` with the current time, map the choices, and default a missing
usage to zeros. -/
def copilot_to_openai_chat_response (now : Nat) (resp : CopilotChatResponse) :
    OpenAIChatResponse :=
  { id := resp.id,
    object := "chat.completion",
    created := resp.created.getD now,
    model := resp.model,
    choices := copilot_choices_to_openai 0 resp.choices,
    usage :=
      (resp.usage.map fun u =>
        { prompt_tokens := u.prompt_tokens,
          completion_tokens := u.completion_tokens,
          total_tokens := u.total_tokens : OpenAIUsage }).getD
        { prompt_tokens := 0, completion_tokens := 0, total_tokens := 0 } }

/-! ## Responses-dialect data model (src/openai/responses/models/prompt_response.rs)

Only the pieces reachable from the code under study are embedded.
`ResponsesToolDefinition.parameters` holds a JSON value obtained by
parsing the tool-call arguments string; the embedding keeps that source
string (`parameters_src`) since no claim inspects the parsed value.
`AdditionalParameters` is an all-optional bag that the code only ever
instantiates as `default` (every field absent); its float and JSON-map
fields are omitted here. -/

/-- The `object` discriminator of a Responses-API response. -/
inductive ResponseObject where
  | response
deriving Repr, DecidableEq

/-- Status of a response or output item (`ResponseStatus`). -/
inductive ResponseStatus where
  | inProgress
  | completed
  | failed
  | cancelled
  | queued
  | incomplete
deriving Repr, DecidableEq

/-- Role of an output message (`OutputRole`). -/
inductive OutputRole where
  | assistant
deriving Repr, DecidableEq

/-- Basic text content (`Text`). -/
structure Text where
  text : String
deriving Repr, DecidableEq

/-- Assistant content of an output message (`AssistantContent`). -/
inductive AssistantContent where
  | outputText (t : Text)
  | refusal (refusal : String)
deriving Repr, DecidableEq

/-- An output message (`OutputMessage`). -/
structure OutputMessage where
  id : String
  role : OutputRole
  status : ResponseStatus
  content : List AssistantContent
deriving Repr, DecidableEq

/-- Status of a tool call (`ToolStatus`). -/
inductive ToolStatus where
  | inProgress
  | completed
  | incomplete
deriving Repr, DecidableEq

/-- A Responses-API tool call output item (`OutputFunctionCall`). -/
structure OutputFunctionCall where
  id : String
  arguments : String
  call_id : String
  name : String
  status : ToolStatus
deriving Repr, DecidableEq

/-- A reasoning summary element (`ReasoningSummary`). -/
inductive ReasoningSummary where
  | summaryText (text : String)
deriving Repr, DecidableEq

/-- An output item (`Output`). -/
inductive Output where
  | message (m : OutputMessage)
  | functionCall (f : OutputFunctionCall)
  | reasoning (id : String) (summary : List ReasoningSummary)
deriving Repr, DecidableEq

/-- In-depth details on output tokens (`OutputTokensDetails`). -/
structure OutputTokensDetails where
  reasoning_tokens : Nat
deriving Repr, DecidableEq

/-- In-depth details on input tokens (`InputTokensDetails`). -/
structure InputTokensDetails where
  cached_tokens : Nat
deriving Repr, DecidableEq

/-- Responses-API token usage (`ResponsesUsage`). -/
structure ResponsesUsage where
  input_tokens : Nat
  input_tokens_details : Option InputTokensDetails
  output_tokens : Nat
  output_tokens_details : OutputTokensDetails
  total_tokens : Nat
deriving Repr, DecidableEq

/-- A response error (`ResponseError`). -/
structure ResponseError where
  code : String
  message : String
deriving Repr, DecidableEq

/-- Reason of an incomplete response (`IncompleteDetailsReason`). -/
structure IncompleteDetailsReason where
  reason : String
deriving Repr, DecidableEq

/-- A tool definition of the Responses dialect
(`ResponsesToolDefinition`); `parameters_src` is the raw JSON text the
source feeds to `serde_json::from_str` for the `parameters` field. -/
structure ResponsesToolDefinition where
  name : String
  parameters_src : String
  strict : Bool
  kind : String
  description : String
deriving Repr, DecidableEq

/-- The additional-parameter bag (`AdditionalParameters`); only ever
`default` in the code under study. -/
structure AdditionalParameters where
  background : Option Bool := none
  user : Option String := none
  parallel_tool_calls : Option Bool := none
  previous_response_id : Option String := none
  store : Option Bool := none
deriving Repr, DecidableEq

/-- `AdditionalParameters::default()`. -/
def AdditionalParameters.default : AdditionalParameters := {}

/-- A Responses-API completion response (`CompletionResponse`). -/
structure CompletionResponse where
  id : String
  object : ResponseObject
  created_at : Nat
  status : ResponseStatus
  error : Option ResponseError
  incomplete_details : Option IncompleteDetailsReason
  instructions : Option String
  max_output_tokens : Option Nat
  model : String
  usage : Option ResponsesUsage
  output : List Output
  tools : List ResponsesToolDefinition
  additional_parameters : AdditionalParameters
deriving Repr, DecidableEq

/-- A text content part used inside streaming lifecycle events
(`ContentPartText`); `kind` is the serde-renamed `type` field. -/
structure ContentPartText where
  kind : String
  text : String
deriving Repr, DecidableEq

/-- A streaming lifecycle event of the Responses API
(`ResponseStreamEvent`). -/
inductive ResponseStreamEvent where
  | responseCreated (response : CompletionResponse)
  | responseOutputItemAdded (output_index : Nat) (item : OutputMessage)
  | responseContentPartAdded (item_id : String) (output_index content_index : Nat)
      (part : ContentPartText)
  | responseOutputTextDelta (item_id : String) (output_index content_index : Nat)
      (delta : String)
  | responseOutputTextDone (item_id : String) (output_index content_index : Nat)
      (text : String)
  | responseContentPartDone (item_id : String) (output_index content_index : Nat)
      (part : ContentPartText)
  | responseOutputItemDone (output_index : Nat) (item : OutputMessage)
  | responseCompleted (response : CompletionResponse)
deriving Repr, DecidableEq

/-- The SSE event-name tag attached by `make_event`. -/
def event_type : ResponseStreamEvent → String
  | .responseCreated _ => "response.created"
  | .responseOutputItemAdded _ _ => "response.output_item.added"
  | .responseContentPartAdded _ _ _ _ => "response.content_part.added"
  | .responseOutputTextDelta _ _ _ _ => "response.output_text.delta"
  | .responseOutputTextDone _ _ _ _ => "response.output_text.done"
  | .responseContentPartDone _ _ _ _ => "response.content_part.done"
  | .responseOutputItemDone _ _ => "response.output_item.done"
  | .responseCompleted _ => "response.completed"

/-! ## Responses-API streaming transcoder (src/server/openai/responses_chat.rs)

The upstream byte stream is consumed line by line.  Line framing and the
serde parse of the `data: ` payload are environment effects; each line
arrives here already classified the way `translate_sse_line` classifies
it: a line without the `data: ` prefix (`plain`), or a `data: ` payload
that is the `[DONE]` sentinel, a chunk that parses as `CopilotChunk`, or
JSON that fails to parse.  `make_event` only attaches the event-name tag
(`event_type` above) and serializes; the embedding keeps the structured
event. -/

/-- Parsed delta of one chunk choice (`CopilotChunkDelta`). -/
structure CopilotChunkDelta where
  content : Option String
deriving Repr, DecidableEq

/-- One choice of a chunk (`CopilotChunkChoice`); `finish_reason` is dead
code in the source. -/
structure CopilotChunkChoice where
  delta : CopilotChunkDelta
  finish_reason : Option String
deriving Repr, DecidableEq

/-- A parsed `chat.completion.chunk` SSE payload (`CopilotChunk`); the
`usage` field is dead code in the source and omitted. -/
structure CopilotChunk where
  id : String
  model : String
  choices : List CopilotChunkChoice
deriving Repr, DecidableEq

/-- A `data: ` payload after the serde parsing cascade. -/
inductive SsePayload where
  | done
  | chunk (c : CopilotChunk)
  | malformed (raw : String)
deriving Repr, DecidableEq

/-- One raw line of the upstream SSE stream, after prefix stripping. -/
inductive SseLine where
  | plain (raw : String)
  | data (payload : SsePayload)
deriving Repr, DecidableEq

/-- The state accumulated across chunks (the three `&mut String`
arguments of `translate_sse_line`). -/
structure StreamAccumulator where
  response_id : String
  response_model : String
  accumulated_text : String
deriving Repr, DecidableEq

/-- `make_in_progress_response`. -/
def make_in_progress_response (id model : String) (created_at : Nat) :
    CompletionResponse :=
  { id := id, object := .response, created_at := created_at,
    status := .inProgress, error := none, incomplete_details := none,
    instructions := none, max_output_tokens := none, model := model,
    usage := none, output := [], tools := [],
    additional_parameters := AdditionalParameters.default }

/-- `make_empty_output_message`. -/
def make_empty_output_message (id : String) : OutputMessage :=
  { id := id, role := .assistant, status := .inProgress, content := [] }

/-- `emit_delta_events`: one `response.output_text.delta` per non-empty
per-choice delta content, each appended to the accumulated text; returns
the new accumulated text with the events. -/
def emit_delta_events (chunk : CopilotChunk) (response_id : String)
    (accumulated_text : String) : String × List ResponseStreamEvent :=
  chunk.choices.foldl
    (fun st choice =>
      let delta := choice.delta.content.getD ""
      if delta.isEmpty then st
      else (st.1 ++ delta,
            st.2 ++ [.responseOutputTextDelta response_id 0 0 delta]))
    (accumulated_text, [])

/-- `emit_completed_events`: the four terminal lifecycle events emitted
on `[DONE]`, all carrying the full accumulated text. -/
def emit_completed_events (created_at : Nat)
    (response_id response_model accumulated_text : String) :
    List ResponseStreamEvent :=
  let full_text := accumulated_text
  let finished_message : OutputMessage :=
    { id := response_id, role := .assistant, status := .completed,
      content := [.outputText { text := full_text }] }
  let completed_response : CompletionResponse :=
    { id := response_id, object := .response, created_at := created_at,
      status := .completed, error := none, incomplete_details := none,
      instructions := none, max_output_tokens := none,
      model := response_model, usage := none,
      output := [.message finished_message], tools := [],
      additional_parameters := AdditionalParameters.default }
  [ .responseOutputTextDone response_id 0 0 full_text,
    .responseContentPartDone response_id 0 0
      { kind := "output_text", text := full_text },
    .responseOutputItemDone 0 finished_message,
    .responseCompleted completed_response ]

/-- `translate_sse_line` of the Responses transcoder: translate one line
into zero or more lifecycle events, threading the accumulator. -/
def translate_sse_line (created_at : Nat) (st : StreamAccumulator)
    (line : SseLine) : StreamAccumulator × List ResponseStreamEvent :=
  match line with
  | .plain _ => (st, [])
  | .data (.malformed _) => (st, [])
  | .data .done =>
    (st, emit_completed_events created_at st.response_id st.response_model
          st.accumulated_text)
  | .data (.chunk chunk) =>
    if st.response_id.isEmpty && !chunk.id.isEmpty then
      let st1 :=
        { st with response_id := chunk.id, response_model := chunk.model }
      let created_event :=
        ResponseStreamEvent.responseCreated
          (make_in_progress_response st1.response_id st1.response_model
            created_at)
      let item_added :=
        ResponseStreamEvent.responseOutputItemAdded 0
          (make_empty_output_message st1.response_id)
      let part_added :=
        ResponseStreamEvent.responseContentPartAdded st1.response_id 0 0
          { kind := "output_text", text := "" }
      let r := emit_delta_events chunk st1.response_id st1.accumulated_text
      ({ st1 with accumulated_text := r.1 },
        [created_event, item_added, part_added] ++ r.2)
    else
      let r := emit_delta_events chunk st.response_id st.accumulated_text
      ({ st with accumulated_text := r.1 }, r.2)

/-- Run the transcoder over a whole stream of lines, starting from the
empty accumulator the handler creates (`String::new()` three times). -/
def process_lines (created_at : Nat) :
    StreamAccumulator → List SseLine → StreamAccumulator × List ResponseStreamEvent
  | st, [] => (st, [])
  | st, l :: ls =>
    let r1 := translate_sse_line created_at st l
    let r2 := process_lines created_at r1.1 ls
    (r2.1, r1.2 ++ r2.2)

/-! ## Ollama streaming transcoder (src/server_ollama_chat.rs)

`chrono::Utc::now().to_rfc3339()` is an environment effect; the
embedding takes the formatted timestamp as the parameter `now_rfc3339`.
The source serializes each emitted object with serde and appends a
newline; the embedding keeps the structured object. -/

/-- An Ollama tool call (`OllamaToolCall`). -/
structure OllamaToolCall where
  id : String
  function_name : String
  function_description : Option String
  function_arguments : String
deriving Repr, DecidableEq

/-- An Ollama chat message (`OllamaMessage`). -/
structure OllamaMessage where
  role : String
  content : String
  thinking : Option String
  tool_calls : Option (List OllamaToolCall)
  images : Option (List String)
deriving Repr, DecidableEq

/-- An Ollama-compatible chat response object (`OllamaChatResponse`). -/
structure OllamaChatResponse where
  model : String
  created_at : String
  message : OllamaMessage
  done : Bool
  done_reason : Option String
  total_duration : Option Nat
  load_duration : Option Nat
  prompt_eval_count : Option Nat
  prompt_eval_duration : Option Nat
  eval_count : Option Nat
  eval_duration : Option Nat
deriving Repr, DecidableEq

/-- Parsed delta of an OpenAI-format stream chunk (`OpenAIStreamDelta`). -/
structure OpenAIStreamDelta where
  content : Option String
deriving Repr, DecidableEq

/-- One choice of an OpenAI-format stream chunk (`OpenAIStreamChoice`). -/
structure OpenAIStreamChoice where
  delta : OpenAIStreamDelta
deriving Repr, DecidableEq

/-- A parsed OpenAI-format SSE delta chunk (`OpenAIStreamChunk`). -/
structure OpenAIStreamChunk where
  choices : List OpenAIStreamChoice
deriving Repr, DecidableEq

/-- A `data: ` payload of the Ollama transcoder after serde parsing. -/
inductive OllamaSsePayload where
  | done
  | chunk (c : OpenAIStreamChunk)
  | malformed (raw : String)
deriving Repr, DecidableEq

/-- One raw line of the upstream stream, for the Ollama transcoder. -/
inductive OllamaSseLine where
  | plain (raw : String)
  | data (payload : OllamaSsePayload)
deriving Repr, DecidableEq

/-- Result of translating a single SSE line into Ollama NDJSON output
(`SseLineOutput`); `line` carries the object the source serializes. -/
inductive SseLineOutput where
  | line (obj : OllamaChatResponse)
  | skip
  | unexpected (raw : String)
deriving Repr, DecidableEq

/-- `translate_sse_line` of the Ollama transcoder: `[DONE]` becomes the
terminal `done: true` object, a parsed chunk becomes an intermediate
`done: false` object carrying the first choice's delta content (empty
string when absent), a malformed payload or a non-blank non-`data:` line
is `unexpected`, and a blank line is skipped. -/
def ollama_translate_sse_line (model : String) (now_rfc3339 : String)
    (line : OllamaSseLine) : SseLineOutput :=
  match line with
  | .data .done =>
    .line
      { model := model, created_at := now_rfc3339,
        message :=
          { role := "assistant", content := "", thinking := none,
            tool_calls := none, images := none },
        done := true, done_reason := some "stop",
        total_duration := none, load_duration := none,
        prompt_eval_count := none, prompt_eval_duration := none,
        eval_count := none, eval_duration := none }
  | .data (.chunk chunk) =>
    let content := (chunk.choices.head?.bind fun c => c.delta.content).getD ""
    .line
      { model := model, created_at := now_rfc3339,
        message :=
          { role := "assistant", content := content, thinking := none,
            tool_calls := none, images := none },
        done := false, done_reason := none,
        total_duration := none, load_duration := none,
        prompt_eval_count := none, prompt_eval_duration := none,
        eval_count := none, eval_duration := none }
  | .data (.malformed raw) => .unexpected raw
  | .plain raw => if raw.trim.isEmpty then .skip else .unexpected raw

/-! ## Non-streaming Responses-API conversion (src/copilot/utils.rs,
`From<CopilotChatResponse> for CompletionResponse`)

The source indexes `tool_calls[0]` whenever the `tool_calls` field is
present, which panics on an empty list; the embedding models the panic as
`none` (the choice map uses `tool_calls[0]?` and the conversion is
`Option`-valued). -/

/-- `From<CopilotUsage> for ResponsesUsage`. -/
def copilot_usage_to_responses_usage (u : CopilotUsage) : ResponsesUsage :=
  { input_tokens := u.prompt_tokens, input_tokens_details := none,
    output_tokens := u.completion_tokens,
    output_tokens_details := { reasoning_tokens := 0 },
    total_tokens := u.total_tokens }

/-- Map one Copilot choice (at position `i`) to its output item: a
function-call item built from the first tool call when `tool_calls` is
present (`none` models the panic when that list is empty), otherwise a
message item with the assistant text or a refusal placeholder. -/
def choice_to_output (resp_id : String) (i : Nat) (choice : CopilotChoice) :
    Option Output :=
  let msg := choice.message
  match msg.tool_calls with
  | some tool_calls =>
    match tool_calls[0]? with
    | some tc =>
      some (.functionCall
        { id := tc.id.getD "", arguments := tc.function.arguments,
          call_id := msg.tool_call_id.getD "", name := tc.function.name,
          status := .completed })
    | none => none
  | none =>
    some (.message
      { id := resp_id ++ "-" ++ toString i, role := .assistant,
        status := .completed,
        content :=
          [match msg.content with
           | some content => .outputText { text := content }
           | none => .refusal "No content"] })

/-- The `choices.iter().enumerate().map(..).collect()` loop of the
conversion, with the panic propagated as `none`. -/
def choices_to_output (resp_id : String) :
    Nat → List CopilotChoice → Option (List Output)
  | _, [] => some []
  | i, c :: cs =>
    match choice_to_output resp_id i c, choices_to_output resp_id (i + 1) cs with
    | some o, some os => some (o :: os)
    | _, _ => none

/-- The `tools` collection of the conversion: one definition per tool
call of every choice, keeping the raw arguments text that the source
parses into the `parameters` JSON value. -/
def collect_response_tools (choices : List CopilotChoice) :
    List ResponsesToolDefinition :=
  choices.flatMap fun choice =>
    match choice.message.tool_calls with
    | some tool_calls =>
      tool_calls.map fun tc =>
        { name := tc.function.name, parameters_src := tc.function.arguments,
          strict := true, kind := tc.tool_type, description := "" }
    | none => []

/-- `From<CopilotChatResponse> for CompletionResponse`, `Option`-valued
to model the `tool_calls[0]` panic. -/
def copilot_to_completion_response (resp : CopilotChatResponse) :
    Option CompletionResponse :=
  match choices_to_output resp.id 0 resp.choices with
  | none => none
  | some output =>
    some
      { id := resp.id, object := .response,
        created_at := resp.created.getD 0, status := .completed,
        error := none, incomplete_details := none, instructions := none,
        max_output_tokens := none, model := resp.model,
        usage := resp.usage.map copilot_usage_to_responses_usage,
        output := output, tools := collect_response_tools resp.choices,
        additional_parameters := AdditionalParameters.default }

/-- Number of "tool"-role messages in a message list (used to state where
the positional zip of `assign_tool_ids` places each index). -/
def count_tool (ms : List OpenAIMessage) : Nat :=
  (ms.filter fun m => m.role == tool_role).length

/-! ## Theorems -/

/-- C1: for every `ServiceToken`, the expiry check returns true exactly
when `expires_at ≤ now + 60`, independent of `refresh_in`: true on
`(now, now + 60]`, true on `expires_at ≤ now`, false above `now + 60`. -/
theorem C1_is_token_expired (t : CopilotTokenResponse) (now : Nat) :
    (is_token_expired now t = true ↔ t.expires_at ≤ now + 60)
    ∧ (∀ r, is_token_expired now { t with refresh_in := r } = is_token_expired now t)
    ∧ (t.expires_at ≤ now → is_token_expired now t = true)
    ∧ (now < t.expires_at → t.expires_at ≤ now + 60 → is_token_expired now t = true)
    ∧ (now + 60 < t.expires_at → is_token_expired now t = false) := by
  unfold is_token_expired
  refine ⟨by simp, fun r => rfl, ?_, ?_, ?_⟩ <;> intro h <;> simp_all <;> omega

/-- Witness for C1 at concrete tokens: expiring inside the buffer and
beyond it. -/
theorem C1_witness :
    is_token_expired 50 { token := "t", expires_at := 100, refresh_in := 0 } = true
    ∧ is_token_expired 50 { token := "t", expires_at := 111, refresh_in := 0 } = false :=
  ⟨(C1_is_token_expired { token := "t", expires_at := 100, refresh_in := 0 } 50).2.2.2.1
      (by decide) (by decide),
   (C1_is_token_expired { token := "t", expires_at := 111, refresh_in := 0 } 50).2.2.2.2
      (by decide)⟩

/-- C2: `get_valid_token` returns a cached unexpired token unchanged and
persists nothing; when the cache is unusable it fails `loginRequired` if
the access credential is absent, otherwise exchanges it: on success the
new token is persisted and returned, on failure the error is propagated
as `refreshFailed` with nothing persisted. -/
theorem C2_get_valid_token (now : Nat) (store : CredentialStore)
    (exchange : AccessTokenResponse → Except String CopilotTokenResponse) :
    (∀ t, store.token_file = .loaded t → is_token_expired now t = false →
        get_valid_token now store exchange = (.ok t, none))
    ∧ ((∀ t, store.token_file = .loaded t → is_token_expired now t = true) →
        store.access_token = .ok none →
        get_valid_token now store exchange = (.error .loginRequired, none))
    ∧ (∀ a ct, (∀ t, store.token_file = .loaded t → is_token_expired now t = true) →
        store.access_token = .ok (some a) → exchange a = .ok ct →
        get_valid_token now store exchange = (.ok ct, some ct))
    ∧ (∀ a e, (∀ t, store.token_file = .loaded t → is_token_expired now t = true) →
        store.access_token = .ok (some a) → exchange a = .error e →
        get_valid_token now store exchange = (.error (.refreshFailed e), none)) := by
  obtain ⟨tf, acc⟩ := store
  refine ⟨?_, ?_, ?_, ?_⟩
  · intro t ht hexp
    cases tf with
    | loaded t0 =>
      cases ht
      simp [get_valid_token, hexp]
    | missing => cases ht
    | corrupt m => cases ht
  · intro hexp hacc
    cases hacc
    cases tf with
    | loaded t0 => simp [get_valid_token, hexp t0 rfl, refresh_token]
    | missing => simp [get_valid_token, refresh_token]
    | corrupt m => simp [get_valid_token, refresh_token]
  · intro a ct hexp hacc hx
    cases hacc
    cases tf with
    | loaded t0 => simp [get_valid_token, hexp t0 rfl, refresh_token, hx]
    | missing => simp [get_valid_token, refresh_token, hx]
    | corrupt m => simp [get_valid_token, refresh_token, hx]
  · intro a e hexp hacc hx
    cases hacc
    cases tf with
    | loaded t0 => simp [get_valid_token, hexp t0 rfl, refresh_token, hx]
    | missing => simp [get_valid_token, refresh_token, hx]
    | corrupt m => simp [get_valid_token, refresh_token, hx]

/-- Witness for C2: a fresh cached token is returned as is; an empty
store fails `loginRequired`; a missing cache with a present credential
exchanges, persisting on success and propagating failure. -/
theorem C2_witness :
    get_valid_token 100
      { token_file := .loaded { token := "c", expires_at := 1000, refresh_in := 0 },
        access_token := .ok none }
      (fun _ => .error "down")
      = (.ok { token := "c", expires_at := 1000, refresh_in := 0 }, none)
    ∧ get_valid_token 100 { token_file := .missing, access_token := .ok none }
        (fun _ => .error "down")
      = (.error .loginRequired, none)
    ∧ get_valid_token 100
        { token_file := .missing,
          access_token := .ok (some { access_token := "gho", token_type := "bearer", scope := "read:user" }) }
        (fun _ => .ok { token := "new", expires_at := 2000, refresh_in := 1500 })
      = (.ok { token := "new", expires_at := 2000, refresh_in := 1500 },
         some { token := "new", expires_at := 2000, refresh_in := 1500 })
    ∧ get_valid_token 100
        { token_file := .missing,
          access_token := .ok (some { access_token := "gho", token_type := "bearer", scope := "read:user" }) }
        (fun _ => .error "503")
      = (.error (.refreshFailed "503"), none) :=
  ⟨(C2_get_valid_token 100
      { token_file := .loaded { token := "c", expires_at := 1000, refresh_in := 0 },
        access_token := .ok none } (fun _ => .error "down")).1
      { token := "c", expires_at := 1000, refresh_in := 0 } rfl (by decide),
   (C2_get_valid_token 100 { token_file := .missing, access_token := .ok none }
      (fun _ => .error "down")).2.1 (by rintro t ⟨⟩) rfl,
   (C2_get_valid_token 100
      { token_file := .missing,
        access_token := .ok (some { access_token := "gho", token_type := "bearer", scope := "read:user" }) }
      (fun _ => .ok { token := "new", expires_at := 2000, refresh_in := 1500 })).2.2.1
      { access_token := "gho", token_type := "bearer", scope := "read:user" }
      { token := "new", expires_at := 2000, refresh_in := 1500 }
      (by rintro t ⟨⟩) rfl rfl,
   (C2_get_valid_token 100
      { token_file := .missing,
        access_token := .ok (some { access_token := "gho", token_type := "bearer", scope := "read:user" }) }
      (fun _ => .error "503")).2.2.2
      { access_token := "gho", token_type := "bearer", scope := "read:user" } "503"
      (by rintro t ⟨⟩) rfl rfl⟩

/-- C4 (counterexample): with `interval = 5` and upstream responses
`[slow_down, authorization_pending, success]`, the code sleeps `[10, 5]`:
the `authorization_pending` sleep after a `slow_down` uses the original
interval (5), not the claimed increased interval (10). -/
theorem C4_counterexample :
    (poll_for_access_token 5
      [.err "slow_down" "d", .err "authorization_pending" "d",
       .success { access_token := "gho", token_type := "bearer", scope := "read:user" }]).1
      = [10, 5]
    ∧ ([10, 5] : List Nat) ≠ [10, 10] := by
  exact ⟨rfl, by decide⟩

/-- C4 (amended): on `slow_down` the loop sleeps `interval + 5` and
retries, but the interval variable is unchanged, so every subsequent
`authorization_pending` sleep uses the original `interval` and every
subsequent `slow_down` again sleeps `interval + 5`; the specification's
`[authorization_pending, authorization_pending, success]` example sleeps
5 s twice and returns the success payload. -/
theorem C4_poll_interval (interval : Nat) (desc : String) (rest : List PollBody) :
    poll_for_access_token interval (.err "slow_down" desc :: rest)
      = ((interval + 5) :: (poll_for_access_token interval rest).1,
         (poll_for_access_token interval rest).2)
    ∧ poll_for_access_token interval (.err "authorization_pending" desc :: rest)
      = (interval :: (poll_for_access_token interval rest).1,
         (poll_for_access_token interval rest).2)
    ∧ ∀ tok : AccessTokenResponse,
        poll_for_access_token 5
          [.err "authorization_pending" desc, .err "authorization_pending" desc,
           .success tok]
          = ([5, 5], .success tok) :=
  ⟨rfl, rfl, fun _ => rfl⟩

/-- C5: streaming two chunks with id "r1" and deltas "Hello", " world"
followed by the `[DONE]` sentinel produces exactly nine events, in order
`created`, `output_item.added`, `content_part.added`, `delta("Hello")`,
`delta(" world")`, `output_text.done("Hello world")`,
`content_part.done`, `output_item.done`, `completed`, with every
terminal event carrying the accumulated text "Hello world". -/
theorem C5_responses_stream :
    (process_lines 100 { response_id := "", response_model := "", accumulated_text := "" }
      [.data (.chunk
         { id := "r1", model := "gpt-4o",
           choices := [{ delta := { content := some "Hello" }, finish_reason := none }] }),
       .data (.chunk
         { id := "r1", model := "gpt-4o",
           choices := [{ delta := { content := some " world" }, finish_reason := none }] }),
       .data .done]).2
    = [.responseCreated
        { id := "r1", object := .response, created_at := 100,
          status := .inProgress, error := none, incomplete_details := none,
          instructions := none, max_output_tokens := none, model := "gpt-4o",
          usage := none, output := [], tools := [],
          additional_parameters := {} },
       .responseOutputItemAdded 0
        { id := "r1", role := .assistant, status := .inProgress, content := [] },
       .responseContentPartAdded "r1" 0 0 { kind := "output_text", text := "" },
       .responseOutputTextDelta "r1" 0 0 "Hello",
       .responseOutputTextDelta "r1" 0 0 " world",
       .responseOutputTextDone "r1" 0 0 "Hello world",
       .responseContentPartDone "r1" 0 0 { kind := "output_text", text := "Hello world" },
       .responseOutputItemDone 0
        { id := "r1", role := .assistant, status := .completed,
          content := [.outputText { text := "Hello world" }] },
       .responseCompleted
        { id := "r1", object := .response, created_at := 100,
          status := .completed, error := none, incomplete_details := none,
          instructions := none, max_output_tokens := none, model := "gpt-4o",
          usage := none,
          output := [.message
            { id := "r1", role := .assistant, status := .completed,
              content := [.outputText { text := "Hello world" }] }],
          tools := [], additional_parameters := {} }] := by
  rfl

/-- C6: for any target model and timestamp, the two-delta-then-DONE
sequence produces exactly three NDJSON objects: two `done: false` with
contents "Hello" and " world", then a terminal `done: true` with
`done_reason = "stop"` and empty content. -/
theorem C6_ollama_stream (model now_rfc3339 : String) :
    [OllamaSseLine.data (.chunk { choices := [{ delta := { content := some "Hello" } }] }),
     OllamaSseLine.data (.chunk { choices := [{ delta := { content := some " world" } }] }),
     OllamaSseLine.data .done].map (ollama_translate_sse_line model now_rfc3339)
    = [.line
        { model := model, created_at := now_rfc3339,
          message := { role := "assistant", content := "Hello", thinking := none,
                       tool_calls := none, images := none },
          done := false, done_reason := none, total_duration := none,
          load_duration := none, prompt_eval_count := none,
          prompt_eval_duration := none, eval_count := none, eval_duration := none },
       .line
        { model := model, created_at := now_rfc3339,
          message := { role := "assistant", content := " world", thinking := none,
                       tool_calls := none, images := none },
          done := false, done_reason := none, total_duration := none,
          load_duration := none, prompt_eval_count := none,
          prompt_eval_duration := none, eval_count := none, eval_duration := none },
       .line
        { model := model, created_at := now_rfc3339,
          message := { role := "assistant", content := "", thinking := none,
                       tool_calls := none, images := none },
          done := true, done_reason := some "stop", total_duration := none,
          load_duration := none, prompt_eval_count := none,
          prompt_eval_duration := none, eval_count := none, eval_duration := none }] := by
  rfl

/-- Positional characterization of the choice map of `chat_completions`:
the choice at position `k` keeps its upstream index when present and
falls back to `i0 + k` otherwise, copying the message fields. -/
theorem copilot_choices_to_openai_getElem? (cs : List CopilotChoice) :
    ∀ (i0 k : Nat),
    (copilot_choices_to_openai i0 cs)[k]? =
      (cs[k]?).map fun c =>
        { index := c.index.getD (i0 + k),
          message :=
            { role := c.message.role, content := c.message.content,
              tool_calls := c.message.tool_calls,
              tool_call_id := c.message.tool_call_id, name := c.message.name },
          finish_reason := c.finish_reason } := by
  induction cs with
  | nil => intro i0 k; simp [copilot_choices_to_openai]
  | cons c cs ih =>
    intro i0 k
    cases k with
    | zero => simp [copilot_choices_to_openai]
    | succ k =>
      simp only [copilot_choices_to_openai, List.getElem?_cons_succ, ih (i0 + 1) k]
      have : i0 + 1 + k = i0 + (k + 1) := by omega
      rw [this]

/-- C9: in the non-streaming OpenAI chat conversion, a missing upstream
`created` is backfilled with the conversion-time clock (positive whenever
the clock is), and every choice keeps its upstream-provided index
verbatim, falling back to its array position only when the index is
absent. -/
theorem C9_chat_completion_conversion (now : Nat) (resp : CopilotChatResponse) :
    (resp.created = none →
      (copilot_to_openai_chat_response now resp).created = now
      ∧ (0 < now → 0 < (copilot_to_openai_chat_response now resp).created))
    ∧ (∀ (i : Nat) (c : CopilotChoice), resp.choices[i]? = some c →
        (copilot_to_openai_chat_response now resp).choices[i]? = some
          ({ index := c.index.getD i,
             message :=
               { role := c.message.role, content := c.message.content,
                 tool_calls := c.message.tool_calls,
                 tool_call_id := c.message.tool_call_id, name := c.message.name },
             finish_reason := c.finish_reason } : OpenAIChoice)) := by
  constructor
  · intro h
    constructor
    · simp [copilot_to_openai_chat_response, h]
    · intro hp
      simpa [copilot_to_openai_chat_response, h] using hp
  · intro i c hc
    have := copilot_choices_to_openai_getElem? resp.choices 0 i
    simp only [copilot_to_openai_chat_response]
    rw [this, hc]
    simp

/-- Witness for C9: a response without `created` and with choice indices
`[none, some 5, none]` converts to `created = 1234` and indices
`[0, 5, 2]`. -/
theorem C9_witness :
    (copilot_to_openai_chat_response 1234
      { id := "t", created := none, model := "gpt-4",
        choices :=
          [{ index := none,
             message := { role := "assistant", content := some "a", padding := none,
                          tool_calls := none, tool_call_id := none, name := none },
             finish_reason := "stop" },
           { index := some 5,
             message := { role := "assistant", content := some "b", padding := none,
                          tool_calls := none, tool_call_id := none, name := none },
             finish_reason := "stop" },
           { index := none,
             message := { role := "assistant", content := some "c", padding := none,
                          tool_calls := none, tool_call_id := none, name := none },
             finish_reason := "stop" }],
        usage := none }).created = 1234
    ∧ ((copilot_to_openai_chat_response 1234
        { id := "t", created := none, model := "gpt-4",
          choices :=
            [{ index := none,
               message := { role := "assistant", content := some "a", padding := none,
                            tool_calls := none, tool_call_id := none, name := none },
               finish_reason := "stop" },
             { index := some 5,
               message := { role := "assistant", content := some "b", padding := none,
                            tool_calls := none, tool_call_id := none, name := none },
               finish_reason := "stop" },
             { index := none,
               message := { role := "assistant", content := some "c", padding := none,
                            tool_calls := none, tool_call_id := none, name := none },
               finish_reason := "stop" }],
          usage := none }).choices.map fun ch => ch.index) = [0, 5, 2] := by
  have h :=
    C9_chat_completion_conversion 1234
      { id := "t", created := none, model := "gpt-4",
        choices :=
          [{ index := none,
             message := { role := "assistant", content := some "a", padding := none,
                          tool_calls := none, tool_call_id := none, name := none },
             finish_reason := "stop" },
           { index := some 5,
             message := { role := "assistant", content := some "b", padding := none,
                          tool_calls := none, tool_call_id := none, name := none },
             finish_reason := "stop" },
           { index := none,
             message := { role := "assistant", content := some "c", padding := none,
                          tool_calls := none, tool_call_id := none, name := none },
             finish_reason := "stop" }],
        usage := none }
  exact ⟨(h.1 rfl).1, by decide⟩

/-- Positional characterization of the choice map of the Responses-API
conversion: when the whole map succeeds, the item at position `k` is the
conversion of the choice at position `k` with running index `i0 + k`. -/
theorem choices_to_output_getElem? (rid : String) :
    ∀ (cs : List CopilotChoice) (i0 : Nat) (os : List Output),
    choices_to_output rid i0 cs = some os →
    os.length = cs.length
    ∧ ∀ (k : Nat) (c : CopilotChoice), cs[k]? = some c →
        os[k]? = choice_to_output rid (i0 + k) c := by
  intro cs
  induction cs with
  | nil =>
    intro i0 os h
    simp only [choices_to_output] at h
    cases h
    simp
  | cons c cs ih =>
    intro i0 os h
    simp only [choices_to_output] at h
    cases ho : choice_to_output rid i0 c with
    | none => rw [ho] at h; cases h
    | some o =>
      rw [ho] at h
      cases hrec : choices_to_output rid (i0 + 1) cs with
      | none => rw [hrec] at h; cases h
      | some os2 =>
        rw [hrec] at h
        cases h
        obtain ⟨hlen, hget⟩ := ih (i0 + 1) os2 hrec
        constructor
        · simp [hlen]
        · intro k c2 hc
          cases k with
          | zero =>
            simp only [List.getElem?_cons_zero, Option.some.injEq] at hc
            subst hc
            simpa [Nat.add_zero] using ho.symm
          | succ k =>
            simp only [List.getElem?_cons_succ] at hc ⊢
            rw [hget k c2 hc]
            have : i0 + 1 + k = i0 + (k + 1) := by omega
            rw [this]

/-- C8: when the Responses-API conversion of an upstream response
succeeds, every choice maps to exactly one output item: a function-call
item built from the first tool call when `tool_calls` is present, else a
message item with the assistant text, or a "Refusal" placeholder with
text "No content" when both content and tool calls are absent. -/
theorem C8_responses_conversion (resp : CopilotChatResponse) (r : CompletionResponse)
    (h : copilot_to_completion_response resp = some r) :
    r.output.length = resp.choices.length
    ∧ ∀ (i : Nat) (c : CopilotChoice), resp.choices[i]? = some c →
        ((∀ tc rest, c.message.tool_calls = some (tc :: rest) →
            r.output[i]? = some (.functionCall
              { id := tc.id.getD "", arguments := tc.function.arguments,
                call_id := c.message.tool_call_id.getD "",
                name := tc.function.name, status := .completed }))
         ∧ (∀ s, c.message.tool_calls = none → c.message.content = some s →
            r.output[i]? = some (.message
              { id := resp.id ++ "-" ++ toString i, role := .assistant,
                status := .completed, content := [.outputText { text := s }] }))
         ∧ (c.message.tool_calls = none → c.message.content = none →
            r.output[i]? = some (.message
              { id := resp.id ++ "-" ++ toString i, role := .assistant,
                status := .completed, content := [.refusal "No content"] }))) := by
  simp only [copilot_to_completion_response] at h
  cases hc : choices_to_output resp.id 0 resp.choices with
  | none => rw [hc] at h; cases h
  | some out =>
    rw [hc] at h
    cases h
    obtain ⟨hlen, hget⟩ := choices_to_output_getElem? resp.id resp.choices 0 out hc
    refine ⟨hlen, ?_⟩
    intro i c hi
    have hout := hget i c hi
    rw [Nat.zero_add] at hout
    refine ⟨?_, ?_, ?_⟩
    · intro tc rest htc
      rw [hout]
      simp [choice_to_output, htc]
    · intro s htc hs
      rw [hout]
      simp [choice_to_output, htc, hs]
    · intro htc hs
      rw [hout]
      simp [choice_to_output, htc, hs]

/-- Witness for C8: a two-choice response (one tool call, one plain
text) converts to a function-call item followed by a message item. -/
theorem C8_witness :
    copilot_to_completion_response
      { id := "r", created := some 7, model := "gpt-4",
        choices :=
          [{ index := some 0,
             message :=
               { role := "assistant", content := none, padding := none,
                 tool_calls := some
                   [{ id := some "call_1", tool_type := "function",
                      function := { name := "get_weather", arguments := "\x7b\x7d" } }],
                 tool_call_id := none, name := none },
             finish_reason := "tool_calls" },
           { index := some 1,
             message :=
               { role := "assistant", content := some "Hi", padding := none,
                 tool_calls := none, tool_call_id := none, name := none },
             finish_reason := "stop" }],
        usage := none }
    = some
      { id := "r", object := .response, created_at := 7, status := .completed,
        error := none, incomplete_details := none, instructions := none,
        max_output_tokens := none, model := "gpt-4", usage := none,
        output :=
          [.functionCall
            { id := "call_1", arguments := "\x7b\x7d", call_id := "",
              name := "get_weather", status := .completed },
           .message
            { id := "r-1", role := .assistant, status := .completed,
              content := [.outputText { text := "Hi" }] }],
        tools :=
          [{ name := "get_weather", parameters_src := "\x7b\x7d", strict := true,
             kind := "function", description := "" }],
        additional_parameters := {} }
    ∧ (∃ r, copilot_to_completion_response
        { id := "r", created := some 7, model := "gpt-4",
          choices :=
            [{ index := some 0,
               message :=
                 { role := "assistant", content := none, padding := none,
                   tool_calls := some
                     [{ id := some "call_1", tool_type := "function",
                        function := { name := "get_weather", arguments := "\x7b\x7d" } }],
                   tool_call_id := none, name := none },
               finish_reason := "tool_calls" },
             { index := some 1,
               message :=
                 { role := "assistant", content := some "Hi", padding := none,
                   tool_calls := none, tool_call_id := none, name := none },
               finish_reason := "stop" }],
          usage := none } = some r
        ∧ r.output.length = 2
        ∧ r.output[0]? = some (.functionCall
            { id := "call_1", arguments := "\x7b\x7d", call_id := "",
              name := "get_weather", status := .completed })
        ∧ r.output[1]? = some (.message
            { id := "r-1", role := .assistant, status := .completed,
              content := [.outputText { text := "Hi" }] })) := by
  have hconv :
      copilot_to_completion_response
        { id := "r", created := some 7, model := "gpt-4",
          choices :=
            [{ index := some 0,
               message :=
                 { role := "assistant", content := none, padding := none,
                   tool_calls := some
                     [{ id := some "call_1", tool_type := "function",
                        function := { name := "get_weather", arguments := "\x7b\x7d" } }],
                   tool_call_id := none, name := none },
               finish_reason := "tool_calls" },
             { index := some 1,
               message :=
                 { role := "assistant", content := some "Hi", padding := none,
                   tool_calls := none, tool_call_id := none, name := none },
               finish_reason := "stop" }],
          usage := none }
      = some
        { id := "r", object := .response, created_at := 7, status := .completed,
          error := none, incomplete_details := none, instructions := none,
          max_output_tokens := none, model := "gpt-4", usage := none,
          output :=
            [.functionCall
              { id := "call_1", arguments := "\x7b\x7d", call_id := "",
                name := "get_weather", status := .completed },
             .message
              { id := "r-1", role := .assistant, status := .completed,
                content := [.outputText { text := "Hi" }] }],
          tools :=
            [{ name := "get_weather", parameters_src := "\x7b\x7d", strict := true,
               kind := "function", description := "" }],
          additional_parameters := {} } := rfl
  refine ⟨hconv, ⟨_, hconv, ?_, ?_, ?_⟩⟩
  · exact (C8_responses_conversion _ _ hconv).1
  · exact ((C8_responses_conversion _ _ hconv).2 0 _ rfl).1 _ _ rfl
  · exact (((C8_responses_conversion _ _ hconv).2 1 _ rfl).2.1) "Hi" rfl rfl

/-- Helper for C10: the choice map succeeds whenever no choice carries an
empty `tool_calls` list. -/
theorem choices_to_output_isSome (rid : String) :
    ∀ (cs : List CopilotChoice) (i0 : Nat),
    (∀ c ∈ cs, ∀ tcs, c.message.tool_calls = some tcs → tcs ≠ []) →
    (choices_to_output rid i0 cs).isSome = true := by
  intro cs
  induction cs with
  | nil => intro i0 _; simp [choices_to_output]
  | cons c cs ih =>
    intro i0 hpre
    have hhead : (choice_to_output rid i0 c).isSome = true := by
      unfold choice_to_output
      cases htc : c.message.tool_calls with
      | none => simp [htc]
      | some tcs =>
        cases tcs with
        | nil => exact absurd rfl (hpre c (by simp) [] htc)
        | cons tc rest => simp [htc]
    have htail := ih (i0 + 1) fun c2 hc2 => hpre c2 (by simp [hc2])
    simp only [choices_to_output]
    cases ho : choice_to_output rid i0 c with
    | none => rw [ho] at hhead; cases hhead
    | some o =>
      cases hrec : choices_to_output rid (i0 + 1) cs with
      | none => rw [hrec] at htail; cases htail
      | some os => simp [ho, hrec]

/-- C10: the Responses-API conversion is total under the precondition
that every choice with a `tool_calls` field carries a non-empty list
(the source indexes `tool_calls[0]`); with `tool_calls` present but
empty, the out-of-bounds branch is reached and the conversion fails. -/
theorem C10_conversion_totality :
    (∀ resp : CopilotChatResponse,
       (∀ c ∈ resp.choices, ∀ tcs, c.message.tool_calls = some tcs → tcs ≠ []) →
       (copilot_to_completion_response resp).isSome = true)
    ∧ copilot_to_completion_response
        { id := "x", created := none, model := "m",
          choices :=
            [{ index := none,
               message :=
                 { role := "assistant", content := none, padding := none,
                   tool_calls := some [], tool_call_id := none, name := none },
               finish_reason := "stop" }],
          usage := none } = none := by
  constructor
  · intro resp hpre
    have := choices_to_output_isSome resp.id resp.choices 0 hpre
    simp only [copilot_to_completion_response]
    cases hc : choices_to_output resp.id 0 resp.choices with
    | none => rw [hc] at this; cases this
    | some out => simp
  · rfl

/-- Witness for C10: the totality half applied to a response whose only
choice has a singleton `tool_calls` list. -/
theorem C10_witness :
    (copilot_to_completion_response
      { id := "w", created := none, model := "m",
        choices :=
          [{ index := none,
             message :=
               { role := "assistant", content := none, padding := none,
                 tool_calls := some
                   [{ id := none, tool_type := "function",
                      function := { name := "f", arguments := "1" } }],
                 tool_call_id := none, name := none },
             finish_reason := "tool_calls" }],
        usage := none }).isSome = true :=
  C10_conversion_totality.1
    { id := "w", created := none, model := "m",
      choices :=
        [{ index := none,
           message :=
             { role := "assistant", content := none, padding := none,
               tool_calls := some
                 [{ id := none, tool_type := "function",
                    function := { name := "f", arguments := "1" } }],
               tool_call_id := none, name := none },
           finish_reason := "tool_calls" }],
      usage := none }
    (by
      intro c hc tcs htc
      simp only [List.mem_singleton] at hc
      subst hc
      simp only [Option.some.injEq] at htc
      subst htc
      simp)

/-! ### Normalizer lemmas -/

/-- A "tool"-role message is not assistant-role. -/
theorem tool_not_assistant {m : OpenAIMessage} (h : (m.role == tool_role) = true) :
    (m.role == assistant_role) = false := by
  have hr : m.role = tool_role := by simpa using h
  simp [hr, tool_role, assistant_role]

/-- An "assistant"-role message is not tool-role. -/
theorem assistant_not_tool {m : OpenAIMessage} (h : (m.role == assistant_role) = true) :
    (m.role == tool_role) = false := by
  have hr : m.role = assistant_role := by simpa using h
  simp [hr, tool_role, assistant_role]

/-- The second pass leaves the role untouched. -/
theorem assign_call_ids_role (m : OpenAIMessage) :
    (assign_call_ids m).role = m.role := by
  unfold assign_call_ids
  split
  · split <;> rfl
  · rfl

/-- The second pass does nothing to a non-assistant message. -/
theorem assign_call_ids_of_not_assistant {m : OpenAIMessage}
    (h : (m.role == assistant_role) = false) : assign_call_ids m = m := by
  unfold assign_call_ids
  simp [h]

/-- Renumbering tool-call ids twice with the same start is the same as
once. -/
theorem set_call_ids_idem : ∀ (i : Nat) (tcs : List ToolCall),
    set_call_ids i (set_call_ids i tcs) = set_call_ids i tcs := by
  intro i tcs
  induction tcs generalizing i with
  | nil => rfl
  | cons tc tcs ih => simp [set_call_ids, ih]

/-- Renumbering preserves the list length. -/
theorem set_call_ids_length : ∀ (i : Nat) (tcs : List ToolCall),
    (set_call_ids i tcs).length = tcs.length := by
  intro i tcs
  induction tcs generalizing i with
  | nil => rfl
  | cons tc tcs ih => simp [set_call_ids, ih]

/-- Renumbering preserves the function names. -/
theorem set_call_ids_names : ∀ (i : Nat) (tcs : List ToolCall),
    (set_call_ids i tcs).map (fun tc => tc.function.name)
      = tcs.map (fun tc => tc.function.name) := by
  intro i tcs
  induction tcs generalizing i with
  | nil => rfl
  | cons tc tcs ih => simp [set_call_ids, ih]

/-- Positional characterization of `set_call_ids`. -/
theorem set_call_ids_getElem? : ∀ (i : Nat) (tcs : List ToolCall) (k : Nat),
    (set_call_ids i tcs)[k]? =
      (tcs[k]?).map fun tc => { tc with id := some (toString (i + k)) } := by
  intro i tcs
  induction tcs generalizing i with
  | nil => intro k; simp [set_call_ids]
  | cons tc tcs ih =>
    intro k
    cases k with
    | zero => simp [set_call_ids]
    | succ k =>
      simp only [set_call_ids, List.getElem?_cons_succ, ih (i + 1) k]
      rw [show i + 1 + k = i + (k + 1) from by omega]

/-- The second pass is idempotent (pointwise). -/
theorem assign_call_ids_idem (m : OpenAIMessage) :
    assign_call_ids (assign_call_ids m) = assign_call_ids m := by
  obtain ⟨role, content, tcs, tcid, nm⟩ := m
  unfold assign_call_ids
  cases h : role == assistant_role with
  | false => simp [h]
  | true =>
    cases tcs with
    | none => simp [h]
    | some l => simp [h, set_call_ids_idem]

/-- The first pass preserves the list length. -/
theorem assign_tool_ids_length : ∀ (ms : List OpenAIMessage) (idx : Nat)
    (names : List String), (assign_tool_ids ms idx names).length = ms.length := by
  intro ms
  induction ms with
  | nil => intro idx names; rfl
  | cons m ms ih =>
    intro idx names
    cases h : m.role == tool_role with
    | true =>
      cases names with
      | nil => simp [assign_tool_ids, h, ih]
      | cons n rest => simp [assign_tool_ids, h, ih]
    | false => simp [assign_tool_ids, h, ih]

/-- The two mutation passes commute: mapping the second pass first does
not change what the first pass does (roles are preserved and the two
passes touch disjoint message populations). -/
theorem assign_tool_ids_map_comm :
    ∀ (ms : List OpenAIMessage) (idx : Nat) (names : List String),
    assign_tool_ids (ms.map assign_call_ids) idx names
      = (assign_tool_ids ms idx names).map assign_call_ids := by
  intro ms
  induction ms with
  | nil => intro idx names; rfl
  | cons m ms ih =>
    intro idx names
    simp only [List.map_cons]
    cases h : m.role == tool_role with
    | true =>
      have hna := tool_not_assistant h
      have hm : assign_call_ids m = m := assign_call_ids_of_not_assistant hna
      rw [hm]
      cases names with
      | nil => simp [assign_tool_ids, h, hm, ih]
      | cons n rest =>
        have hm2 : assign_call_ids
            { m with name := some n, tool_call_id := some (toString idx) }
            = { m with name := some n, tool_call_id := some (toString idx) } :=
          assign_call_ids_of_not_assistant hna
        simp [assign_tool_ids, h, hm, hm2, ih]
    | false => simp [assign_tool_ids, assign_call_ids_role, h, ih]

/-- The first pass is idempotent with the same start index and names. -/
theorem assign_tool_ids_idem :
    ∀ (ms : List OpenAIMessage) (idx : Nat) (names : List String),
    assign_tool_ids (assign_tool_ids ms idx names) idx names
      = assign_tool_ids ms idx names := by
  intro ms
  induction ms with
  | nil => intro idx names; rfl
  | cons m ms ih =>
    intro idx names
    cases h : m.role == tool_role with
    | true =>
      cases names with
      | nil => simp [assign_tool_ids, h, ih]
      | cons n rest => simp [assign_tool_ids, h, ih]
    | false => simp [assign_tool_ids, h, ih]

/-- Unfolding equation of the name collector. -/
theorem collect_tool_names_cons (m : OpenAIMessage) (ms : List OpenAIMessage) :
    collect_tool_names (m :: ms) =
      (if m.role == assistant_role then
        (match m.tool_calls with
         | some tcs => tcs
         | none => []).map (fun tc : ToolCall => tc.function.name)
       else []) ++ collect_tool_names ms := by
  unfold collect_tool_names
  cases h : m.role == assistant_role with
  | true => simp [List.filter_cons, h]
  | false => simp [List.filter_cons, h]

/-- The second pass does not change the collected names. -/
theorem collect_map_assign_call_ids :
    ∀ (ms : List OpenAIMessage),
    collect_tool_names (ms.map assign_call_ids) = collect_tool_names ms := by
  intro ms
  induction ms with
  | nil => rfl
  | cons m ms ih =>
    rw [List.map_cons, collect_tool_names_cons, collect_tool_names_cons, ih]
    congr 1
    rw [assign_call_ids_role]
    cases h : m.role == assistant_role with
    | false => rfl
    | true =>
      obtain ⟨role, content, tcs, tcid, nm⟩ := m
      unfold assign_call_ids
      cases tcs with
      | none => simp [h]
      | some l => simp [h, set_call_ids_names, set_call_ids_length]

/-- The first pass does not change the collected names. -/
theorem collect_assign_tool_ids :
    ∀ (ms : List OpenAIMessage) (idx : Nat) (names : List String),
    collect_tool_names (assign_tool_ids ms idx names) = collect_tool_names ms := by
  intro ms
  induction ms with
  | nil => intro idx names; rfl
  | cons m ms ih =>
    intro idx names
    cases h : m.role == tool_role with
    | true =>
      have hna := tool_not_assistant h
      cases names with
      | nil => simp [assign_tool_ids, h, hna, collect_tool_names_cons, ih]
      | cons n rest => simp [assign_tool_ids, h, hna, collect_tool_names_cons, ih]
    | false => simp [assign_tool_ids, h, collect_tool_names_cons, ih]

/-- The tool counter of the empty list. -/
theorem count_tool_nil : count_tool [] = 0 := rfl

/-- Unfolding equation of the tool counter. -/
theorem count_tool_cons (m : OpenAIMessage) (ms : List OpenAIMessage) :
    count_tool (m :: ms)
      = count_tool ms + (if m.role == tool_role then 1 else 0) := by
  unfold count_tool
  cases h : m.role == tool_role with
  | true => simp [List.filter_cons, h]
  | false => simp [List.filter_cons, h]

/-- Positional characterization of the first pass: the message at
position `j`, when tool-role, is assigned the collected name and running
index determined by the number of tool messages before it, and is left
alone once the names are exhausted. -/
theorem assign_tool_ids_getElem? :
    ∀ (ms : List OpenAIMessage) (idx : Nat) (names : List String) (j : Nat),
    (assign_tool_ids ms idx names)[j]? =
      (ms[j]?).map (fun m =>
        if m.role == tool_role then
          match names[count_tool (ms.take j)]? with
          | some n =>
            { m with
              name := some n,
              tool_call_id := some (toString (idx + count_tool (ms.take j))) }
          | none => m
        else m) := by
  intro ms
  induction ms with
  | nil => intro idx names j; simp [assign_tool_ids]
  | cons m ms ih =>
    intro idx names j
    cases j with
    | zero =>
      cases h : m.role == tool_role with
      | true =>
        have hr : m.role = tool_role := by simpa using h
        cases names with
        | nil => simp [assign_tool_ids, h, hr, count_tool_nil]
        | cons n rest => simp [assign_tool_ids, h, hr, count_tool_nil]
      | false =>
        have hr : ¬m.role = tool_role := by simpa using h
        simp [assign_tool_ids, h, hr, count_tool_nil]
    | succ j =>
      cases h : m.role == tool_role with
      | true =>
        cases names with
        | nil =>
          simp [assign_tool_ids, h, List.take_succ_cons, count_tool_cons,
            ih (idx + 1) [] j]
        | cons n rest =>
          simp [assign_tool_ids, h, List.take_succ_cons, count_tool_cons,
            ih (idx + 1) rest j,
            show ∀ a b : Nat, a + 1 + b = a + (b + 1) from fun a b => by omega]
      | false =>
        simp [assign_tool_ids, h, List.take_succ_cons, count_tool_cons,
          ih idx names j]

/-- C7 (corrected, counterexample): a request whose only message is a
"tool"-role message without ids has no collected assistant tool-call
names, so normalization leaves it unchanged and the second application
still observes `ids_present = false` — contradicting the claim that the
second call observes `ids_present == true`. -/
theorem C7_counterexample :
    ids_present (prepare_for_copilot
      { model := "m",
        messages := [{ role := "tool", content := some "result",
                       tool_calls := none, tool_call_id := none, name := none }],
        stream := false }) = false := by
  rfl

/-- C7 (amended): `prepare_for_copilot` is idempotent — applying it
twice yields the same request as applying it once.  However, the second
application need not observe `ids_present = true`: tool-role messages
beyond the collected assistant tool-call names are left without ids, so
the second application simply recomputes the same assignment. -/
theorem C7_prepare_for_copilot_idem (req : OpenAIChatRequest) :
    prepare_for_copilot (prepare_for_copilot req) = prepare_for_copilot req := by
  obtain ⟨model, msgs, stream⟩ := req
  unfold prepare_for_copilot ensure_tool_ids
  by_cases h1 : ids_present ⟨model, msgs, stream⟩
  · simp [h1]
  · simp only [h1, if_false, Bool.false_eq_true]
    by_cases h2 : ids_present
        ⟨model, (assign_tool_ids msgs 0 (collect_tool_names msgs)).map assign_call_ids,
         stream⟩
    · simp [h1, h2]
    · simp only [h1, h2, if_false, Bool.false_eq_true]
      congr 1
      rw [collect_map_assign_call_ids, collect_assign_tool_ids,
        assign_tool_ids_map_comm, assign_tool_ids_idem, List.map_map]
      exact List.map_congr_left fun m _ => assign_call_ids_idem m

/-- C3 (corrected, counterexample): a request with one "tool"-role
message lacking its id and no assistant tool calls has `ids_present =
false`, yet normalization leaves the request completely unchanged — the
tool message does not receive `tool_call_id = "0"` as the claim states,
because the positional zip with the (empty) collected name list ends
immediately. -/
theorem C3_counterexample :
    ids_present
      { model := "m",
        messages := [{ role := "tool", content := some "result",
                       tool_calls := none, tool_call_id := none, name := none }],
        stream := false } = false
    ∧ ensure_tool_ids
        { model := "m",
          messages := [{ role := "tool", content := some "result",
                         tool_calls := none, tool_call_id := none, name := none }],
          stream := false }
      = { model := "m",
          messages := [{ role := "tool", content := some "result",
                         tool_calls := none, tool_call_id := none, name := none }],
          stream := false }
    ∧ ((ensure_tool_ids
        { model := "m",
          messages := [{ role := "tool", content := some "result",
                         tool_calls := none, tool_call_id := none, name := none }],
          stream := false }).messages.map fun m => m.tool_call_id)
      = [none]
    ∧ ([none] : List (Option String)) ≠ [some "0"] := by
  refine ⟨rfl, rfl, rfl, by decide⟩

/-- C3 (amended): normalization is all-or-nothing up to the positional
zip: when every required id is present the request is unchanged; when
any is missing, every assistant message's tool calls are renumbered
`"0"`, `"1"`, … (index restarting per message), and the k-th tool-role
message receives `tool_call_id = "<k>"` and the k-th collected assistant
tool-call name — but only while collected names remain: tool-role
messages beyond the zip are left unchanged, as are messages of other
roles. -/
theorem C3_ensure_tool_ids (req : OpenAIChatRequest) :
    (ids_present req = true → ensure_tool_ids req = req)
    ∧ (ids_present req = false →
        (ensure_tool_ids req).messages.length = req.messages.length
        ∧ (∀ (j : Nat) (m : OpenAIMessage), req.messages[j]? = some m →
            m.role = tool_role →
            (ensure_tool_ids req).messages[j]? = some
              (match (collect_tool_names req.messages)[count_tool (req.messages.take j)]? with
               | some n =>
                 { m with
                   name := some n,
                   tool_call_id := some (toString (count_tool (req.messages.take j))) }
               | none => m))
        ∧ (∀ (j : Nat) (m : OpenAIMessage), req.messages[j]? = some m →
            m.role = assistant_role → m.tool_calls = none →
            (ensure_tool_ids req).messages[j]? = some m)
        ∧ (∀ (j : Nat) (m : OpenAIMessage) (tcs : List ToolCall),
            req.messages[j]? = some m → m.role = assistant_role →
            m.tool_calls = some tcs →
            ∃ tcs2, (ensure_tool_ids req).messages[j]? =
                some { m with tool_calls := some tcs2 }
              ∧ tcs2.length = tcs.length
              ∧ ∀ (k : Nat) (tc : ToolCall), tcs[k]? = some tc →
                  tcs2[k]? = some { tc with id := some (toString k) })
        ∧ (∀ (j : Nat) (m : OpenAIMessage), req.messages[j]? = some m →
            ¬m.role = tool_role → ¬m.role = assistant_role →
            (ensure_tool_ids req).messages[j]? = some m)) := by
  obtain ⟨model, msgs, stream⟩ := req
  constructor
  · intro h
    unfold ensure_tool_ids
    simp [h]
  · intro h
    have hmsgs : (ensure_tool_ids ⟨model, msgs, stream⟩).messages
        = (assign_tool_ids msgs 0 (collect_tool_names msgs)).map assign_call_ids := by
      unfold ensure_tool_ids
      simp [h]
    refine ⟨?_, ?_, ?_, ?_, ?_⟩
    · rw [hmsgs]
      simp [assign_tool_ids_length]
    · intro j m hj hrole
      have hb : (m.role == tool_role) = true := by simp [hrole]
      have hna := tool_not_assistant hb
      rw [hmsgs, List.getElem?_map, assign_tool_ids_getElem?, hj]
      simp only [Option.map_some']
      refine congrArg some ?_
      rw [if_pos hb, Nat.zero_add]
      cases hn : (collect_tool_names msgs)[count_tool (msgs.take j)]? with
      | none =>
        exact assign_call_ids_of_not_assistant hna
      | some n =>
        exact @assign_call_ids_of_not_assistant
          { m with
            name := some n,
            tool_call_id := some (toString (count_tool (msgs.take j))) } hna
    · intro j m hj hrole htc
      have hb : (m.role == assistant_role) = true := by simp [hrole]
      have hnt := assistant_not_tool hb
      rw [hmsgs, List.getElem?_map, assign_tool_ids_getElem?, hj]
      simp only [Option.map_some']
      refine congrArg some ?_
      rw [if_neg (by simp [hnt])]
      unfold assign_call_ids
      rw [if_pos hb, htc]
    · intro j m tcs hj hrole htc
      have hb : (m.role == assistant_role) = true := by simp [hrole]
      have hnt := assistant_not_tool hb
      refine ⟨set_call_ids 0 tcs, ?_, set_call_ids_length 0 tcs, ?_⟩
      · rw [hmsgs, List.getElem?_map, assign_tool_ids_getElem?, hj]
        simp only [Option.map_some']
        refine congrArg some ?_
        rw [if_neg (by simp [hnt])]
        unfold assign_call_ids
        rw [if_pos hb, htc]
      · intro k tc hk
        rw [set_call_ids_getElem?, hk]
        simp only [Option.map_some', Nat.zero_add]
    · intro j m hj hnt hna
      have hb1 : (m.role == tool_role) = false := by simp [hnt]
      have hb2 : (m.role == assistant_role) = false := by simp [hna]
      rw [hmsgs, List.getElem?_map, assign_tool_ids_getElem?, hj]
      simp only [Option.map_some']
      refine congrArg some ?_
      rw [if_neg (by simp [hb1])]
      exact assign_call_ids_of_not_assistant hb2

/-- Witness for C3 (amended): a request with one assistant tool call
and one tool-role message, both missing ids, is renumbered: the tool
message gets the collected name and id "0", the assistant tool call gets
id "0". -/
theorem C3_witness :
    ids_present
      { model := "m",
        messages :=
          [{ role := "assistant", content := none,
             tool_calls := some
               [{ id := none, tool_type := "function",
                  function := { name := "get_weather", arguments := "1" } }],
             tool_call_id := none, name := none },
           { role := "tool", content := some "72F",
             tool_calls := none, tool_call_id := none, name := none }],
        stream := false } = false
    ∧ (ensure_tool_ids
        { model := "m",
          messages :=
            [{ role := "assistant", content := none,
               tool_calls := some
                 [{ id := none, tool_type := "function",
                    function := { name := "get_weather", arguments := "1" } }],
               tool_call_id := none, name := none },
             { role := "tool", content := some "72F",
               tool_calls := none, tool_call_id := none, name := none }],
          stream := false }).messages[1]?
      = some { role := "tool", content := some "72F", tool_calls := none,
               tool_call_id := some "0", name := some "get_weather" } := by
  constructor
  · rfl
  · exact
      ((C3_ensure_tool_ids
        { model := "m",
          messages :=
            [{ role := "assistant", content := none,
               tool_calls := some
                 [{ id := none, tool_type := "function",
                    function := { name := "get_weather", arguments := "1" } }],
               tool_call_id := none, name := none },
             { role := "tool", content := some "72F",
               tool_calls := none, tool_call_id := none, name := none }],
          stream := false }).2 rfl).2.1 1
        { role := "tool", content := some "72F", tool_calls := none,
          tool_call_id := none, name := none } rfl rfl

end Passenger
